import Mathlib

/-!
Shallow embedding of the sqlxx header-only SQL cursor library
(`sqlxx.h` plus the MySQL / PostgreSQL / SQLite driver headers).

The embedding models:
  * the tagged value model `field_type` and the `row` container,
  * `query_has_results` (the lexical result-producing classifier),
  * the query builder `query` (raw-text escaping append, the
    column-name `format` substitution, bind accumulation, `execute`),
  * the `cursor` / `iterator` pull protocol over a `statement` handle,
  * the scoped `transaction` of the three drivers,
  * the driver `statement` constructors (outcome classification and
    last-id / affected-rows defaults).

C++ `std::string` values are modelled as `List Char` (query text) or
`List Nat` (byte payloads); a `char const*` argument denotes the bytes
the pointer designates up to the first NUL terminator, which is made
explicit by `cstring`.  Unbounded C++ loops (the `find`/`replace` loop
of the `format` append) are modelled with an explicit fuel parameter;
with enough fuel the model computes exactly the value the C++ loop
terminates with.
-/

namespace Sqlxx

/-- The single-quote character, written by code point to keep source
literals unambiguous. -/
def squote : Char := Char.ofNat 39

/-- The backslash character. -/
def bslash : Char := Char.ofNat 92

/-- The NUL terminator of C strings. -/
def nulChar : Char := Char.ofNat 0

/-- The opening curly brace used by the placeholder syntax of the
`format` append. -/
def obrace : Char := Char.ofNat 123

/-- The closing curly brace of the placeholder syntax. -/
def cbrace : Char := Char.ofNat 125

/-- The opening parenthesis. -/
def oparen : Char := Char.ofNat 40

/-- The closing parenthesis. -/
def cparen : Char := Char.ofNat 41

/-- `enum sql_type` of `sqlxx.h`. -/
inductive sql_type where
  | SQL_INVALID
  | SQL_NULL
  | SQL_INTEGER
  | SQL_FLOAT
  | SQL_TEXT
  | SQL_BLOB
deriving DecidableEq, Repr

/-- `enum result_type` of `sqlxx.h` (the Outcome taxonomy). -/
inductive result_type where
  | SQL_OK
  | SQL_IMPROPER
  | SQL_NO_MEMORY
  | SQL_SERVER_LOST
  | SQL_UNKNOWN_ERROR
deriving DecidableEq, Repr

/-- `sqlxx::field_type`: one result field.  `int_` and `float_` are the
two numeric views, `str_` holds text or blob bytes, `name_` the column
name, `type_` the tag.  The C++ `double` member is modelled by `Rat`;
no claim depends on IEEE-754 behaviour of the float view. -/
structure field_type where
  int_ : Int := 0
  float_ : Rat := 0
  str_ : List Nat := []
  name_ : String := ""
  type_ : sql_type := sql_type.SQL_INVALID
deriving DecidableEq, Repr

/-- Truncation toward zero, mirroring the C++ cast `std::int64_t(d)`
in the float constructor of `field_type`. -/
def ratTrunc (q : Rat) : Int := Int.tdiv q.num (Int.ofNat q.den)

/-- `field_type(std::string const& name)`: a NULL field. -/
def field_type.ofNull (name : String) : field_type :=
  { name_ := name, type_ := sql_type.SQL_NULL }

/-- `field_type(std::int64_t i, name)`: integer field; also stores the
float view `double(int_)`. -/
def field_type.ofInt (i : Int) (name : String) : field_type :=
  { int_ := i, float_ := (i : Rat), name_ := name, type_ := sql_type.SQL_INTEGER }

/-- `field_type(double d, name)`: float field; also stores the integer
view `std::int64_t(d)`. -/
def field_type.ofFloat (d : Rat) (name : String) : field_type :=
  { int_ := ratTrunc d, float_ := d, name_ := name, type_ := sql_type.SQL_FLOAT }

/-- `field_type(std::string s, name)`: text field (bytes of `s`). -/
def field_type.ofText (s : List Nat) (name : String) : field_type :=
  { str_ := s, name_ := name, type_ := sql_type.SQL_TEXT }

/-- `field_type(blob b, name)`: blob field (bytes of `b`). -/
def field_type.ofBlob (b : List Nat) (name : String) : field_type :=
  { str_ := b, name_ := name, type_ := sql_type.SQL_BLOB }

/-- The shared sentinel `invalid<field_type>()`: a default-constructed
`field_type` (tag `SQL_INVALID`, zero payloads, empty name). -/
def invalid_field : field_type := {}

/-- Rendering of a byte string back as text, for the `SQL_TEXT` branch
of `toString` (bytes were obtained from the characters of the C++
string). -/
def bytesToString (l : List Nat) : String := String.mk (l.map Char.ofNat)

/-- The hex-rendering loop of the `SQL_BLOB` branch of `toString`:
`for (auto const& v : str_) s << (int(v) & 0xFF);` with the stream in
`std::hex` mode.  Each byte is printed as its lowercase hexadecimal
digits with no field width, hence no zero padding (`setfill` without
`setw` pads nothing). -/
def hexLoop : List Nat → List Char
  | [] => []
  | v :: rest => Nat.toDigits 16 (v % 256) ++ hexLoop rest

/-- Rendering of the C++ `double` member for the `SQL_FLOAT` branch.
The C++ code uses default `ostream` formatting of a `double`; that
floating-point text format is outside this embedding and no claim
depends on this branch. -/
def doubleRepr (q : Rat) : String :=
  Int.repr q.num ++ (if q.den = 1 then "" else "/" ++ Nat.repr q.den)

/-- `field_type::toString()`. -/
def field_type.toString (f : field_type) : String :=
  match f.type_ with
  | sql_type.SQL_TEXT => bytesToString f.str_
  | sql_type.SQL_INTEGER => Int.repr f.int_
  | sql_type.SQL_FLOAT => doubleRepr f.float_
  | sql_type.SQL_BLOB => String.mk (bslash :: Char.ofNat 120 :: hexLoop f.str_)
  | sql_type.SQL_NULL => "NULL"
  | sql_type.SQL_INVALID => "INVALID"

/-- The claim-side digit function of a canonical (two digits per byte)
hexadecimal encoding, used to compare the code's rendering with the
canonical one. -/
def hexDigit (n : Nat) : Char :=
  if n < 10 then Char.ofNat (48 + n) else Char.ofNat (87 + n)

/-- `sqlxx::row`: an ordered sequence of fields. -/
abbrev row := List field_type

/-- `row::operator[](size_type idx)`: the idx-th field when in range,
the shared invalid sentinel otherwise. -/
def row.getIdx (r : row) (idx : Nat) : field_type :=
  r.getD idx invalid_field

/-- `row::operator[](char const* colname)`: linear scan for the first
field whose name equals `colname`; the invalid sentinel when no field
matches.  (`colname` is modelled as a non-null string; the C++ null
pointer guard is outside the model.) -/
def row.getName (r : row) (colname : String) : field_type :=
  (r.find? (fun f => f.name_ == colname)).getD invalid_field

/-- The epsilon comparison of `field_type::operator==` on the float
views: `fabs(a - b) < std::numeric_limits<double>::epsilon()`, with
`DBL_EPSILON = 2 ^ (-52)`. -/
def float_close (a b : Rat) : Bool :=
  decide (|a - b| < (1 : Rat) / 2 ^ 52)

/-- `field_type::operator==(field_type const&)`. -/
def field_type.feq (a b : field_type) : Bool :=
  a.type_ == b.type_ && a.int_ == b.int_ && a.str_ == b.str_ &&
    a.name_ == b.name_ && float_close a.float_ b.float_

/-- `row::operator==`: same length and pairwise equal fields. -/
def rowEq (r q : row) : Bool :=
  r.length == q.length && (List.zip r q).all (fun p => field_type.feq p.1 p.2)

/-- The observable state of a driver `statement` handle for the pull
protocol: the rows the native statement yields in order, and the
current read position.  `next()` pulls one row (an empty row past the
end); `first()` rewinds (`mysql_stmt_data_seek(stmt_, 0)`,
`MOVE BACKWARD ALL`, `sqlite3_reset`). -/
structure StatementState where
  rows : List row
  pos : Nat := 0
deriving DecidableEq, Repr

/-- `statement::next()`: one row per call, the empty row at the end. -/
def statement_next (s : StatementState) : row × StatementState :=
  match s.rows.drop s.pos with
  | [] => ([], s)
  | r :: _ => (r, { s with pos := s.pos + 1 })

/-- `statement::first()`: rewind to the beginning. -/
def statement_first (s : StatementState) : StatementState :=
  { s with pos := 0 }

/-- `sqlxx::iterator`: holds the last pulled row and a (non-owning)
observation of the statement.  `live := false` models an iterator
whose `weak_ptr` is empty, so `next()` leaves `row_` untouched; the
default `row_` is the empty row. -/
structure iterator where
  row_ : row := []
  live : Bool := false
deriving DecidableEq, Repr

/-- Construction of an iterator from a live statement: the constructor
immediately calls `next()`, pulling row 0. -/
def iterator.mkFrom (s : StatementState) : iterator × StatementState :=
  let p := statement_next s
  ({ row_ := p.1, live := true }, p.2)

/-- `cursor::end()`: the iterator built from an empty
`std::shared_ptr<statement>`; its `next()` does nothing, so it keeps
the default (empty) row forever. -/
def iterator.endIter : iterator := {}

/-- `iterator::operator==`: compares only the held rows. -/
def iterator.iterEq (a b : iterator) : Bool := rowEq a.row_ b.row_

/-- `cursor::begin()`: calls `first()` on the owned statement, then
constructs an iterator observing it (which pulls row 0). -/
def cursor_begin (s : StatementState) : iterator × StatementState :=
  iterator.mkFrom (statement_first s)

/-- The bytes a `char const*` designates: everything up to the first
NUL terminator. -/
def cstring (text : List Char) : List Char :=
  text.takeWhile (fun c => c != nulChar)

/-- The character loop of `query::operator<<(char const*)`: append each
character, append a second single-quote after a single-quote and a
second backslash after a backslash. -/
def escapeLoop : List Char → List Char
  | [] => []
  | c :: rest =>
      (c :: ((if c = squote then [squote] else []) ++
             (if c = bslash then [bslash] else []))) ++ escapeLoop rest

/-- Specification-side per-character escaping: exactly the two
characters single-quote and backslash are doubled, every other
character is kept unchanged. -/
def escapeSpec (c : Char) : List Char :=
  if c = squote || c = bslash then [c, c] else [c]

/-- `sqlxx::query`: the builder state, a text buffer (`std::stringstream
query_`) and the ordered binding list (`std::vector<field_type>
bind_`). -/
structure query where
  query_ : List Char := []
  bind_ : List field_type := []
deriving DecidableEq, Repr

/-- A default-constructed builder with empty buffers. -/
def query.mkEmpty : query := {}

/-- `query::operator<<(char const*)`: nothing for a null/empty text; the
`strpbrk` fast path appends the text unchanged when it contains neither
single-quote nor backslash; otherwise the escaping loop runs.  The
argument is read as a C string, i.e. up to its first NUL. -/
def query.appendCString (q : query) (text : List Char) : query :=
  let t := cstring text
  if t.isEmpty then q
  else if t.all (fun c => c != squote && c != bslash) then
    { q with query_ := q.query_ ++ t }
  else
    { q with query_ := q.query_ ++ escapeLoop t }

/-- `query::query(std::string const&)`: routes the argument through
`operator<<(char const*)` via `str.c_str()` (the comment in the source
reads `// escape`). -/
def query.mkFromString (s : List Char) : query :=
  query.mkEmpty.appendCString s

/-- The placeholder text the `format` loop builds in `buf` for index
`i`: `'{' << i << '}'` (the `seekp(0)` reuse of `buf` always leaves
exactly this text because the digit count never shrinks as `i`
grows). -/
def placeholderChars (i : Nat) : List Char :=
  obrace :: (Nat.repr i).data ++ [cbrace]

/-- `std::string::find` of a substring: index of the leftmost occurrence
of `p`, `none` when absent. -/
def findSub (p : List Char) : List Char → Option Nat
  | [] => if p.isPrefixOf ([] : List Char) then some 0 else none
  | c :: rest =>
      if p.isPrefixOf (c :: rest) then some 0
      else (findSub p rest).map (· + 1)

/-- The `while ((pos = q.find(buf)) != q.npos) q.replace(pos, strlen(buf), s);`
loop: repeatedly replace the leftmost occurrence of `p` by `r`,
restarting the search from the beginning.  `fuel` bounds the number of
iterations; the C++ loop has no bound (it diverges when `r` keeps an
occurrence of `p` alive), and with enough fuel this function computes
exactly the value the terminating C++ loop produces. -/
def replaceAll : Nat → List Char → List Char → List Char → List Char
  | 0, _p, _r, q => q
  | fuel + 1, p, r, q =>
      match findSub p q with
      | none => q
      | some i => replaceAll fuel p r (q.take i ++ r ++ q.drop (i + p.length))

/-- The outer loop of `query::operator<<(format)`: for the `i`-th name
`s`, replace every occurrence of the placeholder `{i}` in the
accumulated text by `s`. -/
def formatLoop (fuel : Nat) : Nat → List Char → List (List Char) → List Char
  | _i, q, [] => q
  | i, q, s :: rest =>
      formatLoop fuel (i + 1) (replaceAll fuel (placeholderChars i) s q) rest

/-- `query::operator<<(format)`: takes the whole accumulated text,
substitutes the sequential placeholders by the given names, and writes
the result back unescaped (`query_ << std::move(q)` is a raw stream
write). -/
def query.appendFormat (q : query) (fuel : Nat) (names : List (List Char)) : query :=
  { q with query_ := formatLoop fuel 0 q.query_ names }

/-- `query::bind(param, value)`: append one entry to the binding
list (`bind_.emplace_back(value, param)`); the text buffer is not
touched. -/
def query.bindValue (q : query) (f : field_type) : query :=
  { q with bind_ := q.bind_ ++ [f] }

/-- `query::execute()`: hands the accumulated text (as a C string, via
`query_.str().c_str()`) and the binding list (via `std::move(bind_)`,
which leaves the vector empty) to `execute_impl`, then clears the text
buffer (`query_.str({})`).  Returns the handed arguments and the
post-call builder state. -/
def query.execute (q : query) : (List Char × List field_type) × query :=
  ((cstring q.query_, q.bind_), ({} : query))

/-- ECMAScript `\w` (word character) as used by the `\b` boundary of
the classifier regexes: ASCII letters, digits and underscore. -/
def isWordChar (c : Char) : Bool := c.isAlphanum || c = Char.ofNat 95

/-- Case-insensitive prefix test, modelling `std::regex_constants::icase`
matching of a literal keyword. -/
def ciPrefixOf : List Char → List Char → Bool
  | [], _ => true
  | _ :: _, [] => false
  | k :: ks, c :: cs => (k.toLower == c.toLower) && ciPrefixOf ks cs

/-- Both `\b` word boundaries around a keyword of length `len` matched
at position `i` of `q` (the keywords consist of word characters only,
so each boundary holds exactly when the neighbouring character is
absent or a non-word character). -/
def wordBoundaryAt (q : List Char) (i len : Nat) : Bool :=
  (decide (i = 0) || !isWordChar (q.getD (i - 1) (Char.ofNat 32))) &&
    !isWordChar ((q.drop (i + len)).headD (Char.ofNat 32))

/-- The regex `\b(KW)\b` (icase) matched at position `i`. -/
def kwHit (kw q : List Char) (i : Nat) : Bool :=
  ciPrefixOf kw (q.drop i) && wordBoundaryAt q i kw.length

/-- `std::regex_search` for `\b(KW)\b`: a hit at some position. -/
def kwSearch (kw q : List Char) : Bool :=
  (List.range (q.length + 1)).any (fun i => kwHit kw q i)

/-- The lookahead body `[^\(]*\)` matched at the head of `rest`: some
closing parenthesis occurs before any opening parenthesis. -/
def lookaheadCloseParen (rest : List Char) : Bool :=
  (rest.takeWhile (fun c => c != oparen)).contains cparen

/-- The keyword `SELECT`. -/
def selectKw : List Char := "SELECT".data

/-- The keyword `DESC`. -/
def descKw : List Char := "DESC".data

/-- The keyword `SHOW`. -/
def showKw : List Char := "SHOW".data

/-- The keyword `EXPLAIN`. -/
def explainKw : List Char := "EXPLAIN".data

/-- The keyword `DESCRIBE`. -/
def describeKw : List Char := "DESCRIBE".data

/-- `std::regex_search` for `\b(SELECT)\b(?![^\(]*\))`: a boundary hit
of `SELECT` at a position where the negative lookahead succeeds, i.e.
where no closing parenthesis precedes the next opening parenthesis in
the remainder. -/
def selectSearch (q : List Char) : Bool :=
  (List.range (q.length + 1)).any
    (fun i => kwHit selectKw q i && !lookaheadCloseParen (q.drop (i + selectKw.length)))

/-- `sqlxx::query_has_results`: the disjunction of the five regex
searches, in source order (`DESC`, `SHOW`, `EXPLAIN`, `DESCRIBE`, and
`SELECT` with the parenthesis lookahead). -/
def query_has_results (s : String) : Bool :=
  kwSearch descKw s.data || kwSearch showKw s.data || kwSearch explainKw s.data ||
    kwSearch describeKw s.data || selectSearch s.data

/-- The classifier the claim describes: one of the five keywords at a
word boundary and 'not inside parentheses', with the parenthesis
exclusion (the code's lookahead heuristic) applied uniformly to every
keyword, not just `SELECT`. -/
def claim_keyword_classifier (s : String) : Bool :=
  [descKw, showKw, explainKw, describeKw, selectKw].any (fun kw =>
    (List.range (s.data.length + 1)).any
      (fun i => kwHit kw s.data i && !lookaheadCloseParen (s.data.drop (i + kw.length))))

/-- The scoped `transaction` of the drivers (`mysqlxx::transaction`,
`pqsqlxx::transaction`, `sqlitexx::transaction` are textually identical
up to the native call).  Only the `finished_` flag is observable state;
the success of each native BEGIN/COMMIT/ROLLBACK call is an oracle
argument. -/
structure transaction where
  finished_ : Bool
deriving DecidableEq, Repr

/-- The constructor: `finished_ = !begin();` where `begin()` issues the
native BEGIN and reports its success. -/
def transaction.construct (beginOk : Bool) : transaction :=
  { finished_ := !beginOk }

/-- `transaction::commit()`: a no-op returning `true` when already
finished; otherwise issues COMMIT, sets `finished_` to the success of
that call and returns it. -/
def transaction.commit (t : transaction) (commitOk : Bool) : Bool × transaction :=
  if t.finished_ then (true, t) else (commitOk, { finished_ := commitOk })

/-- `transaction::rollback()`: a no-op returning `true` when already
finished; otherwise issues ROLLBACK, sets `finished_` to the success of
that call and returns it. -/
def transaction.rollback (t : transaction) (rollbackOk : Bool) : Bool × transaction :=
  if t.finished_ then (true, t) else (rollbackOk, { finished_ := rollbackOk })

/-- The destructor `~transaction() { rollback(); }`. -/
def transaction.destruct (t : transaction) (rollbackOk : Bool) : transaction :=
  (t.rollback rollbackOk).2

/-- The observable data of a driver `statement` handle right after
construction: outcome classification, last insert id and affected-row
count (both defaulted to zero). -/
structure driver_handle where
  result_ : result_type
  last_id_ : Nat := 0
  affected_rows_ : Nat := 0
deriving DecidableEq, Repr

/-- `CR_COMMANDS_OUT_OF_SYNC` of MySQL `errmsg.h`. -/
def CR_COMMANDS_OUT_OF_SYNC : Nat := 2014

/-- `CR_OUT_OF_MEMORY` of MySQL `errmsg.h`. -/
def CR_OUT_OF_MEMORY : Nat := 2008

/-- `CR_SERVER_GONE_ERROR` of MySQL `errmsg.h`. -/
def CR_SERVER_GONE_ERROR : Nat := 2006

/-- `CR_SERVER_LOST` of MySQL `errmsg.h`. -/
def CR_SERVER_LOST : Nat := 2013

/-- `mysqlxx::statement::statement`: classifies `mysql_stmt_errno`; on
any non-zero code it returns early, leaving `last_id_` and
`affected_rows_` at their zero defaults.  On success it reads
`mysql_stmt_insert_id` and `mysql_stmt_affected_rows`, clamping an
affected-rows value that is negative as a signed 64-bit integer to
zero. -/
def mysql_statement_init (errno insert_id affected : Nat) : driver_handle :=
  if errno = 0 then
    { result_ := result_type.SQL_OK, last_id_ := insert_id % 2 ^ 64,
      affected_rows_ :=
        if 2 ^ 63 ≤ affected % 2 ^ 64 then 0 else affected % 2 ^ 64 }
  else if errno = CR_COMMANDS_OUT_OF_SYNC then { result_ := result_type.SQL_IMPROPER }
  else if errno = CR_OUT_OF_MEMORY then { result_ := result_type.SQL_NO_MEMORY }
  else if errno = CR_SERVER_GONE_ERROR || errno = CR_SERVER_LOST then
    { result_ := result_type.SQL_SERVER_LOST }
  else { result_ := result_type.SQL_UNKNOWN_ERROR }

/-- `ExecStatusType` values of libpq that the PostgreSQL driver
inspects (plus a catch-all for every other status). -/
inductive pg_status where
  | PGRES_COMMAND_OK
  | PGRES_TUPLES_OK
  | PGRES_NONFATAL_ERROR
  | PGRES_BAD_RESPONSE
  | PGRES_EMPTY_QUERY
  | PGRES_FATAL_ERROR
  | PGRES_OTHER
deriving DecidableEq, Repr

/-- `pqsqlxx::statement::statement`: starts from `SQL_NO_MEMORY` (the
null-result case), classifies `PQresultStatus`, and on every non-OK
classification returns early with `last_id_` and `affected_rows_` at
their zero defaults.  On success it reads `PQoidValue` and the parsed
`PQcmdTuples` count. -/
def pq_statement_init (res_null : Bool) (status : pg_status) (conn_ok : Bool)
    (oid cmd_tuples : Nat) : driver_handle :=
  if res_null then { result_ := result_type.SQL_NO_MEMORY }
  else
    match status with
    | pg_status.PGRES_COMMAND_OK =>
        { result_ := result_type.SQL_OK, last_id_ := oid % 2 ^ 64,
          affected_rows_ := cmd_tuples % 2 ^ 64 }
    | pg_status.PGRES_NONFATAL_ERROR =>
        { result_ := result_type.SQL_OK, last_id_ := oid % 2 ^ 64,
          affected_rows_ := cmd_tuples % 2 ^ 64 }
    | pg_status.PGRES_BAD_RESPONSE => { result_ := result_type.SQL_UNKNOWN_ERROR }
    | pg_status.PGRES_EMPTY_QUERY => { result_ := result_type.SQL_IMPROPER }
    | pg_status.PGRES_FATAL_ERROR =>
        if !conn_ok then { result_ := result_type.SQL_SERVER_LOST }
        else { result_ := result_type.SQL_UNKNOWN_ERROR }
    | _ => { result_ := result_type.SQL_UNKNOWN_ERROR }

/-- `SQLITE_OK`. -/
def SQLITE_OK : Nat := 0

/-- `SQLITE_NOMEM`. -/
def SQLITE_NOMEM : Nat := 7

/-- `SQLITE_EMPTY`. -/
def SQLITE_EMPTY : Nat := 16

/-- `SQLITE_DONE`. -/
def SQLITE_DONE : Nat := 101

/-- `sqlitexx::statement::statement`: uses `sqlite3_errcode` when the
prepared statement is null, otherwise the first `sqlite3_step` result;
classifies it, and on every non-OK classification returns early with
`last_id_` and `affected_rows_` at their zero defaults.  On success it
reads `sqlite3_last_insert_rowid` and `sqlite3_changes`. -/
def sqlite_statement_init (stmt_null : Bool) (errcode step_result rowid changes : Nat) :
    driver_handle :=
  let code := if stmt_null then errcode else step_result
  if code = SQLITE_OK || code = SQLITE_DONE then
    { result_ := result_type.SQL_OK, last_id_ := rowid % 2 ^ 64,
      affected_rows_ := changes % 2 ^ 64 }
  else if code = SQLITE_NOMEM then { result_ := result_type.SQL_NO_MEMORY }
  else if code = SQLITE_EMPTY then { result_ := result_type.SQL_IMPROPER }
  else { result_ := result_type.SQL_UNKNOWN_ERROR }

/-- The raw characters of the literal text `O'Brien\x` of the escaping
example. -/
def obrienRaw : List Char :=
  [Char.ofNat 79, squote, Char.ofNat 66, Char.ofNat 114, Char.ofNat 105,
   Char.ofNat 101, Char.ofNat 110, bslash, Char.ofNat 120]

/-- The characters of the escaped form `O''Brien\\x`. -/
def obrienEscaped : List Char :=
  [Char.ofNat 79, squote, squote, Char.ofNat 66, Char.ofNat 114, Char.ofNat 105,
   Char.ofNat 101, Char.ofNat 110, bslash, bslash, Char.ofNat 120]

/-- Proposition-level reading of one regex search: some position
carries a boundary hit of the keyword. -/
def KwOccurs (kw q : List Char) : Prop := ∃ i, kwHit kw q i = true

/-- Proposition-level reading of the `SELECT` search: some boundary hit
of `SELECT` whose negative parenthesis lookahead succeeds (no closing
parenthesis before the next opening one in the remainder). -/
def SelectOccurs (q : List Char) : Prop :=
  ∃ i, kwHit selectKw q i = true ∧
    lookaheadCloseParen (q.drop (i + selectKw.length)) = false

/-- Proposition-level specification of the classifier: one of `DESC`,
`SHOW`, `EXPLAIN`, `DESCRIBE` occurs at a word boundary (with no
parenthesis condition), or `SELECT` occurs at a word boundary with the
parenthesis exclusion not applying. -/
def ExpectResults (s : String) : Prop :=
  KwOccurs descKw s.data ∨ KwOccurs showKw s.data ∨ KwOccurs explainKw s.data ∨
    KwOccurs describeKw s.data ∨ SelectOccurs s.data

/-! ## Helper lemmas -/

theorem cstring_eq_self {l : List Char} (h : nulChar ∉ l) : cstring l = l := by
  induction l with
  | nil => rfl
  | cons c t ih =>
    simp only [List.mem_cons, not_or] at h
    have hc : (c != nulChar) = true := by
      simp only [bne_iff_ne, ne_eq]
      exact fun e => h.1 e.symm
    simp [cstring, List.takeWhile_cons, hc] at ih ⊢
    exact ih h.2

theorem escapeLoop_eq_flatMap (t : List Char) : escapeLoop t = t.flatMap escapeSpec := by
  induction t with
  | nil => rfl
  | cons c rest ih =>
    have hsb : squote ≠ bslash := by decide
    by_cases hq : c = squote
    · subst hq
      simp [escapeLoop, escapeSpec, hsb, ih]
    · by_cases hb : c = bslash
      · subst hb
        simp [escapeLoop, escapeSpec, hq, ih]
      · simp [escapeLoop, escapeSpec, hq, hb, ih]

theorem flatMap_escapeSpec_id {t : List Char} (h : ∀ c ∈ t, c ≠ squote ∧ c ≠ bslash) :
    t.flatMap escapeSpec = t := by
  induction t with
  | nil => rfl
  | cons c rest ih =>
    have hc := h c (List.mem_cons_self c rest)
    have hr : ∀ c ∈ rest, c ≠ squote ∧ c ≠ bslash := fun x hx => h x (List.mem_cons_of_mem c hx)
    simp [escapeSpec, hc.1, hc.2, ih hr]

theorem appendCString_query (q : query) (text : List Char) :
    (q.appendCString text).query_ = q.query_ ++ (cstring text).flatMap escapeSpec := by
  unfold query.appendCString
  by_cases h1 : (cstring text).isEmpty = true
  · have he : cstring text = [] := by
      cases hx : cstring text with
      | nil => rfl
      | cons a b => rw [hx] at h1; simp [List.isEmpty] at h1
    simp [h1, he]
  · by_cases h2 : ((cstring text).all fun c => c != squote && c != bslash) = true
    · have hall : ∀ c ∈ cstring text, c ≠ squote ∧ c ≠ bslash := by
        intro c hc
        have := (List.all_eq_true.mp h2) c hc
        simp only [Bool.and_eq_true, bne_iff_ne, ne_eq] at this
        exact this
      simp [h1, h2, flatMap_escapeSpec_id hall]
    · simp [h1, h2, escapeLoop_eq_flatMap]

theorem appendCString_bind (q : query) (text : List Char) :
    (q.appendCString text).bind_ = q.bind_ := by
  unfold query.appendCString
  by_cases h1 : (cstring text).isEmpty = true
  · simp [h1]
  · by_cases h2 : ((cstring text).all fun c => c != squote && c != bslash) = true
    · simp [h1, h2]
    · simp [h1, h2]

/-! ## Claim theorems -/

/-- Claim C1: appending a C string as raw text via
`query::operator<<(char const*)` appends exactly the per-character
escaped form in which each single-quote and each backslash is doubled
and every other character is unchanged; a text containing neither
character is appended unchanged, and appending the literal text
`O'Brien\x` appends `O''Brien\\x`. -/
theorem raw_append_escapes_quote_and_backslash (q : query) (text : List Char)
    (hnul : nulChar ∉ text) :
    (q.appendCString text).query_ = q.query_ ++ text.flatMap escapeSpec
    ∧ ((∀ c ∈ text, c ≠ squote ∧ c ≠ bslash) →
        (q.appendCString text).query_ = q.query_ ++ text)
    ∧ (query.mkEmpty.appendCString obrienRaw).query_ = obrienEscaped := by
  refine ⟨?_, ?_, by decide⟩
  · rw [appendCString_query, cstring_eq_self hnul]
  · intro h
    rw [appendCString_query, cstring_eq_self hnul, flatMap_escapeSpec_id h]

/-- Witness for C1 at the concrete input `O'Brien\x` appended to an
empty builder. -/
theorem raw_append_escapes_quote_and_backslash_witness :
    (query.mkEmpty.appendCString obrienRaw).query_ =
      query.mkEmpty.query_ ++ obrienRaw.flatMap escapeSpec :=
  (raw_append_escapes_quote_and_backslash query.mkEmpty obrienRaw (by decide)).1

/-- Claim C10, counterexample: for the three-character `std::string`
`"a\0b"` (with an embedded NUL), `query(s)` accumulates only `"a"` —
the `str.c_str()` handoff truncates at the NUL — and not the escaped
form of the whole string, so the claim's `for every string s` fails. -/
theorem query_ctor_nul_truncation_counterexample :
    (query.mkFromString [Char.ofNat 97, nulChar, Char.ofNat 98]).query_ = [Char.ofNat 97]
    ∧ (query.mkFromString [Char.ofNat 97, nulChar, Char.ofNat 98]).query_ ≠
        ([Char.ofNat 97, nulChar, Char.ofNat 98].flatMap escapeSpec) := by decide

/-- Claim C10 as amended: `query(std::string const&)` routes its
argument through the raw-text append path `operator<<(char const*)`
(identically to default-constructing and appending `s.c_str()`), so it
accumulates exactly the escaped form of `s` truncated at its first NUL
character; for every NUL-free string — in particular every string a
C string can carry — that is exactly the escaped form of `s`. -/
theorem query_ctor_routes_raw_append (s : List Char) :
    query.mkFromString s = query.mkEmpty.appendCString s
    ∧ (query.mkFromString s).query_ = (cstring s).flatMap escapeSpec
    ∧ (nulChar ∉ s → (query.mkFromString s).query_ = s.flatMap escapeSpec) := by
  refine ⟨rfl, ?_, ?_⟩
  · show (query.mkEmpty.appendCString s).query_ = (cstring s).flatMap escapeSpec
    rw [appendCString_query]
    rfl
  · intro h
    show (query.mkEmpty.appendCString s).query_ = s.flatMap escapeSpec
    rw [appendCString_query, cstring_eq_self h]
    rfl

/-- Witness for C10 at the concrete one-character string `"a"`. -/
theorem query_ctor_routes_raw_append_witness :
    (query.mkFromString [Char.ofNat 97]).query_ = [Char.ofNat 97].flatMap escapeSpec :=
  (query_ctor_routes_raw_append [Char.ofNat 97]).2.2 (by decide)

/-- Claim C5, counterexample: a builder state reachable through the
public API (append the raw text `{0}`, then substitute the placeholder
by a name carrying an embedded NUL) accumulates the text `a\0b`, but
`execute()` hands `execute_impl` only `a` — `query_.str().c_str()` is a
C-string handoff that truncates at the first NUL — so `execute()` does
not hand *exactly* the accumulated query text for every builder
state. -/
theorem execute_nul_truncation_counterexample :
    ((query.mkEmpty.appendCString [obrace, Char.ofNat 48, cbrace]).appendFormat 4
        [[Char.ofNat 97, nulChar, Char.ofNat 98]]).query_ =
      [Char.ofNat 97, nulChar, Char.ofNat 98]
    ∧ (((query.mkEmpty.appendCString [obrace, Char.ofNat 48, cbrace]).appendFormat 4
        [[Char.ofNat 97, nulChar, Char.ofNat 98]]).execute).1.1 = [Char.ofNat 97]
    ∧ (((query.mkEmpty.appendCString [obrace, Char.ofNat 48, cbrace]).appendFormat 4
        [[Char.ofNat 97, nulChar, Char.ofNat 98]]).execute).1.1 ≠
      ((query.mkEmpty.appendCString [obrace, Char.ofNat 48, cbrace]).appendFormat 4
        [[Char.ofNat 97, nulChar, Char.ofNat 98]]).query_ := by decide

/-- Claim C5 as amended: `execute()` hands `execute_impl` the
accumulated binding list and the accumulated query text up to its
first NUL byte (the C-string handoff) — exactly the accumulated text
whenever that text is NUL-free — and afterwards both the text buffer
and the binding list are empty, so no previously accumulated text or
binding entry is observed by any subsequent append, bind or
`execute()` on the same builder. -/
theorem execute_snapshots_and_clears (q : query) :
    (q.execute).1.1 = cstring q.query_
    ∧ (q.execute).1.2 = q.bind_
    ∧ (nulChar ∉ q.query_ → (q.execute).1.1 = q.query_)
    ∧ (q.execute).2.query_ = []
    ∧ (q.execute).2.bind_ = []
    ∧ (∀ text, (q.execute).2.appendCString text = query.mkEmpty.appendCString text)
    ∧ (∀ f, (q.execute).2.bindValue f = query.mkEmpty.bindValue f)
    ∧ ((q.execute).2.execute).1 = ([], []) := by
  refine ⟨rfl, rfl, ?_, rfl, rfl, fun _ => rfl, fun _ => rfl, rfl⟩
  intro h
  show cstring q.query_ = q.query_
  exact cstring_eq_self h

/-- Witness for C5 at a one-character builder state. -/
theorem execute_snapshots_and_clears_witness :
    ((query.mkFromString [Char.ofNat 97]).execute).1.1 =
      (query.mkFromString [Char.ofNat 97]).query_ :=
  (execute_snapshots_and_clears (query.mkFromString [Char.ofNat 97])).2.2.1 (by decide)

/-- Claim C4, counterexample: on a transaction whose BEGIN succeeded, a
`commit()` whose native COMMIT call fails leaves `finished_ = false`
(`finished_ = err == 0`), contradicting the claim that `commit()`
"marks the transaction finished"; moreover, a second `commit()` then
re-issues COMMIT and can return `true`, which is not a no-op returning
the last known success state (`false`). -/
theorem transaction_commit_failure_counterexample :
    ((transaction.construct true).commit false).2.finished_ = false
    ∧ (((transaction.construct true).commit false).2.commit true).1 = true := by decide

/-- Claim C4 as amended: the transaction state machine of the three
drivers — construction attempts BEGIN and, if BEGIN fails, marks the
transaction finished so that `commit()` and `rollback()` are no-ops
reporting success; on an unfinished transaction `commit()` attempts
COMMIT, returns that call's success and marks the transaction finished
iff the COMMIT succeeded (`rollback()` likewise for ROLLBACK);
destruction invokes `rollback()`, a no-op when already finished; and
after a *successful* commit, committing again or rolling back is a
no-op returning success. -/
theorem transaction_state_machine (t : transaction) (ok ok2 : Bool) :
    (transaction.construct false).commit ok = (true, transaction.construct false)
    ∧ (transaction.construct false).rollback ok = (true, transaction.construct false)
    ∧ (t.finished_ = false → t.commit ok = (ok, { finished_ := ok }))
    ∧ (t.finished_ = false → t.rollback ok = (ok, { finished_ := ok }))
    ∧ (t.finished_ = true → t.destruct ok = t)
    ∧ t.destruct ok = (t.rollback ok).2
    ∧ (t.finished_ = false → (t.commit true).2.commit ok2 = (true, (t.commit true).2))
    ∧ (t.finished_ = false → (t.commit true).2.rollback ok2 = (true, (t.commit true).2)) := by
  refine ⟨?_, ?_, ?_, ?_, ?_, rfl, ?_, ?_⟩
  · simp [transaction.construct, transaction.commit]
  · simp [transaction.construct, transaction.rollback]
  · intro h; simp [transaction.commit, h]
  · intro h; simp [transaction.rollback, h]
  · intro h; simp [transaction.destruct, transaction.rollback, h]
  · intro h; simp [transaction.commit, h]
  · intro h; simp [transaction.commit, transaction.rollback, h]

/-- Witness for C4 on a freshly begun transaction with a concrete
oracle assignment. -/
theorem transaction_state_machine_witness :
    (transaction.construct true).commit false = (false, { finished_ := false }) :=
  (transaction_state_machine (transaction.construct true) false true).2.2.1 (by decide)

/-- Claim C6: each of the three driver `statement` constructors is a
total function returning a handle (never a thrown exception); it
classifies the native failure into the `result_type` Outcome; and on
every non-Ok outcome the constructor returns before reading the native
last-insert-id and affected-row counters, leaving `last_id_` and
`affected_rows_` at their zero defaults. -/
theorem driver_failed_execute_zero_defaults :
    (∀ errno insert_id affected,
        (mysql_statement_init errno insert_id affected).result_ ≠ result_type.SQL_OK →
        (mysql_statement_init errno insert_id affected).last_id_ = 0
        ∧ (mysql_statement_init errno insert_id affected).affected_rows_ = 0)
    ∧ (∀ rn st co oid ct,
        (pq_statement_init rn st co oid ct).result_ ≠ result_type.SQL_OK →
        (pq_statement_init rn st co oid ct).last_id_ = 0
        ∧ (pq_statement_init rn st co oid ct).affected_rows_ = 0)
    ∧ (∀ sn ec sr ri ch,
        (sqlite_statement_init sn ec sr ri ch).result_ ≠ result_type.SQL_OK →
        (sqlite_statement_init sn ec sr ri ch).last_id_ = 0
        ∧ (sqlite_statement_init sn ec sr ri ch).affected_rows_ = 0)
    ∧ (mysql_statement_init CR_SERVER_LOST 7 9).result_ = result_type.SQL_SERVER_LOST
    ∧ (mysql_statement_init CR_SERVER_GONE_ERROR 7 9).result_ = result_type.SQL_SERVER_LOST
    ∧ (mysql_statement_init CR_OUT_OF_MEMORY 7 9).result_ = result_type.SQL_NO_MEMORY
    ∧ (mysql_statement_init CR_COMMANDS_OUT_OF_SYNC 7 9).result_ = result_type.SQL_IMPROPER
    ∧ (∀ st co oid ct, (pq_statement_init true st co oid ct).result_ =
        result_type.SQL_NO_MEMORY)
    ∧ (pq_statement_init false pg_status.PGRES_EMPTY_QUERY true 7 9).result_ =
        result_type.SQL_IMPROPER
    ∧ (pq_statement_init false pg_status.PGRES_FATAL_ERROR false 7 9).result_ =
        result_type.SQL_SERVER_LOST
    ∧ (sqlite_statement_init false 0 SQLITE_NOMEM 7 9).result_ =
        result_type.SQL_NO_MEMORY
    ∧ (sqlite_statement_init false 0 SQLITE_EMPTY 7 9).result_ =
        result_type.SQL_IMPROPER := by
  refine ⟨?_, ?_, ?_, by decide, by decide, by decide, by decide, ?_, by decide,
    by decide, by decide, by decide⟩
  · intro errno i a
    unfold mysql_statement_init
    split_ifs <;> simp_all
  · intro rn st co oid ct
    cases rn <;> cases co <;> cases st <;> simp [pq_statement_init]
  · intro sn ec sr ri ch
    unfold sqlite_statement_init
    cases sn <;> simp only [Bool.false_eq_true, if_true, if_false, ite_true,
      ite_false, Bool.or_eq_true, decide_eq_true_eq] <;> split_ifs <;>
      intro h <;> simp_all
  · intro st co oid ct
    cases st <;> simp [pq_statement_init]

/-- Witness for C6 at the MySQL server-lost error code. -/
theorem driver_failed_execute_zero_defaults_witness :
    (mysql_statement_init CR_SERVER_LOST 5 7).last_id_ = 0
    ∧ (mysql_statement_init CR_SERVER_LOST 5 7).affected_rows_ = 0 :=
  driver_failed_execute_zero_defaults.1 CR_SERVER_LOST 5 7 (by decide)

/-- `find?` returns the field at position `idx` when that is the first
position whose field carries the requested name. -/
theorem find_first_named (r : row) (name : String) (idx : Nat)
    (h1 : idx < r.length)
    (h2 : (r.getIdx idx).name_ = name)
    (h3 : ∀ j, j < idx → (r.getIdx j).name_ ≠ name) :
    r.find? (fun f => f.name_ == name) = some (r.getIdx idx) := by
  induction r generalizing idx with
  | nil => simp at h1
  | cons f t ih =>
    cases idx with
    | zero =>
      have hf : (f.name_ == name) = true := by
        simp only [row.getIdx, List.getD_cons_zero] at h2
        exact beq_iff_eq.mpr h2
      have hstep : List.find? (fun g => g.name_ == name) (f :: t) = some f := by
        simp [List.find?_cons, hf]
      rw [hstep]
      simp [row.getIdx, List.getD_cons_zero]
    | succ n =>
      have hf : (f.name_ == name) = false := by
        have h0 := h3 0 (Nat.succ_pos n)
        simp only [row.getIdx, List.getD_cons_zero] at h0
        simp [h0]
      have hstep : List.find? (fun g => g.name_ == name) (f :: t) =
          List.find? (fun g => g.name_ == name) t := by
        simp [List.find?_cons, hf]
      rw [hstep]
      have h1' : n < t.length := Nat.lt_of_succ_lt_succ h1
      have h2' : (row.getIdx t n).name_ = name := by
        simpa [row.getIdx, List.getD_cons_succ] using h2
      have h3' : ∀ j, j < n → (row.getIdx t j).name_ ≠ name := by
        intro j hj
        have := h3 (j + 1) (Nat.succ_lt_succ hj)
        simpa [row.getIdx, List.getD_cons_succ] using this
      have := ih n h1' h2' h3'
      simpa [row.getIdx, List.getD_cons_succ] using this

/-- Out-of-range index lookup yields the invalid sentinel. -/
theorem getIdx_out_of_range (r : row) (k : Nat) (h : r.length ≤ k) :
    r.getIdx k = invalid_field := by
  induction r generalizing k with
  | nil => cases k <;> rfl
  | cons f t ih =>
    cases k with
    | zero => simp at h
    | succ n =>
      have : t.length ≤ n := Nat.le_of_succ_le_succ h
      simpa [row.getIdx, List.getD_cons_succ] using ih n this

/-- Claim C7: `row::operator[]` returns the idx-th field in range and
the shared invalid sentinel out of range; name lookup returns the
first field with that name and the same sentinel on a miss; hence
`r[name]` and `r[idx]` agree whenever `idx` is the position of the
first field named `name`. -/
theorem row_lookup_agreement (r : row) (name : String) (idx : Nat)
    (h1 : idx < r.length)
    (h2 : (r.getIdx idx).name_ = name)
    (h3 : ∀ j, j < idx → (r.getIdx j).name_ ≠ name) :
    r.getName name = r.getIdx idx
    ∧ (∀ k, r.length ≤ k → r.getIdx k = invalid_field)
    ∧ (∀ nm : String, (∀ f ∈ r, f.name_ ≠ nm) → r.getName nm = invalid_field) := by
  refine ⟨?_, fun k hk => getIdx_out_of_range r k hk, ?_⟩
  · unfold row.getName
    rw [find_first_named r name idx h1 h2 h3]
    rfl
  · intro nm hm
    unfold row.getName
    have : r.find? (fun f => f.name_ == nm) = none := by
      rw [List.find?_eq_none]
      intro x hx
      simp [hm x hx]
    rw [this]
    rfl

/-- Witness for C7 on a concrete three-field row where the name `b`
first occurs at index 1. -/
theorem row_lookup_agreement_witness :
    row.getName [field_type.ofInt 1 "a", field_type.ofText [] "b",
        field_type.ofInt 2 "b"] "b" =
      row.getIdx [field_type.ofInt 1 "a", field_type.ofText [] "b",
        field_type.ofInt 2 "b"] 1 :=
  (row_lookup_agreement [field_type.ofInt 1 "a", field_type.ofText [] "b",
      field_type.ofInt 2 "b"] "b" 1 (by decide) (by decide) (by decide)).1

/-- Claim C8: on a statement whose first pull (after the `first()`
rewind issued by `begin()`) returns the empty row, `begin()` produces
an iterator holding the empty row, and any iterator holding an empty
row compares equal to the end-sentinel iterator (the one constructed
with no observed handle), because `iterator::operator==` compares only
the held rows; hence `begin() == end()` immediately on an empty result
set. -/
theorem cursor_empty_begin_eq_end (s : StatementState)
    (h : (statement_next (statement_first s)).1 = ([] : row)) :
    iterator.iterEq (cursor_begin s).1 iterator.endIter = true
    ∧ (cursor_begin s).1.row_ = []
    ∧ (∀ it : iterator, it.row_ = [] →
        iterator.iterEq it iterator.endIter = true) := by
  have hrow : (cursor_begin s).1.row_ = [] := by
    simpa [cursor_begin, iterator.mkFrom] using h
  refine ⟨?_, hrow, ?_⟩
  · simp [iterator.iterEq, hrow, iterator.endIter, rowEq]
  · intro it hit
    simp [iterator.iterEq, hit, iterator.endIter, rowEq]

/-- Witness for C8 on a statement with no rows. -/
theorem cursor_empty_begin_eq_end_witness :
    iterator.iterEq (cursor_begin { rows := [] }).1 iterator.endIter = true :=
  (cursor_empty_begin_eq_end { rows := [] } (by decide)).1

/-- The blob hex loop written as a per-byte flat map. -/
theorem hexLoop_eq_flatMap (l : List Nat) :
    hexLoop l = l.flatMap (fun b => Nat.toDigits 16 (b % 256)) := by
  induction l with
  | nil => rfl
  | cons v rest ih => simp [hexLoop, ih]

/-- Claim C9, counterexample: the blob byte `0x0a` renders as `\xa`
(one hex digit), not as the canonical two-digit lowercase hexadecimal
encoding `\x0a`: the stream applies `setfill('0')` but never `setw`,
so bytes below 16 are not zero-padded. -/
theorem toString_blob_no_padding_counterexample :
    (field_type.ofBlob [10] "").toString =
      String.mk [bslash, Char.ofNat 120, Char.ofNat 97]
    ∧ (field_type.ofBlob [10] "").toString ≠
      String.mk [bslash, Char.ofNat 120, hexDigit (10 / 16), hexDigit (10 % 16)] := by
  decide

set_option maxRecDepth 4000 in
/-- Claim C9 as amended: `toString()` is a function of the stored
payload; a Null field renders as the literal `NULL`; a Blob field
renders as `\x` followed by each byte's lowercase hexadecimal digits
*without zero padding* — which agrees with the canonical two-digit
encoding exactly for bytes at least 16, while bytes below 16 produce a
single digit. -/
theorem toString_null_and_blob_rendering (name : String) (bytes : List Nat) :
    (field_type.ofNull name).toString = "NULL"
    ∧ (field_type.ofBlob bytes name).toString =
        String.mk (bslash :: Char.ofNat 120 ::
          bytes.flatMap (fun b => Nat.toDigits 16 (b % 256)))
    ∧ (∀ b, b < 256 → 16 ≤ b →
        Nat.toDigits 16 b = [hexDigit (b / 16), hexDigit (b % 16)])
    ∧ (∀ b, b < 16 → Nat.toDigits 16 b = [hexDigit b]) := by
  refine ⟨rfl, ?_, by decide, by decide⟩
  show String.mk (bslash :: Char.ofNat 120 :: hexLoop bytes) = _
  rw [hexLoop_eq_flatMap]

/-- Witness for C9: the Null rendering and the two-digit agreement at
byte `0xab`. -/
theorem toString_null_and_blob_rendering_witness :
    (field_type.ofNull "n").toString = "NULL"
    ∧ Nat.toDigits 16 171 = [hexDigit (171 / 16), hexDigit (171 % 16)] :=
  ⟨(toString_null_and_blob_rendering "n" []).1,
    (toString_null_and_blob_rendering "n" []).2.2.1 171 (by decide) (by decide)⟩

/-! ## Lemmas for the `format` substitution -/

theorem isPrefixOf_append_self (p t : List Char) : p.isPrefixOf (p ++ t) = true := by
  rw [List.isPrefixOf_iff_prefix]
  exact List.prefix_append p t

theorem findSub_nil_of_cons (c : Char) (p2 : List Char) :
    findSub (c :: p2) [] = none := rfl

theorem findSub_cons_self (c : Char) (p2 t : List Char) :
    findSub (c :: p2) ((c :: p2) ++ t) = some 0 := by
  have h := isPrefixOf_append_self (c :: p2) t
  rw [show (c :: p2) ++ t = c :: (p2 ++ t) from rfl] at h ⊢
  rw [findSub, if_pos h]

theorem findSub_shift (p2 x a : List Char) (ha : obrace ∉ a) :
    findSub (obrace :: p2) (a ++ x) =
      (findSub (obrace :: p2) x).map (· + a.length) := by
  revert ha
  induction a with
  | nil =>
    intro _
    cases h : findSub (obrace :: p2) x <;> simp [h]
  | cons y a ih =>
    intro ha
    have hy : (obrace == y) = false := by
      rw [beq_eq_false_iff_ne]
      intro e
      apply ha
      rw [e]
      exact List.mem_cons_self y a
    have ha' : obrace ∉ a := fun h => ha (List.mem_cons_of_mem y h)
    have hpre : (obrace :: p2).isPrefixOf (y :: (a ++ x)) = false := by
      simp [List.isPrefixOf, hy]
    rw [show (y :: a) ++ x = y :: (a ++ x) from rfl]
    rw [findSub, if_neg (by simp [hpre]), ih ha']
    cases h : findSub (obrace :: p2) x <;> (simp [h]; try omega)

theorem findSub_clean (p2 a : List Char) (ha : obrace ∉ a) :
    findSub (obrace :: p2) a = none := by
  have h := findSub_shift p2 [] a ha
  simpa [findSub_nil_of_cons] using h

theorem replaceAll_succ (fuel : Nat) (p r q : List Char) :
    replaceAll (fuel + 1) p r q =
      match findSub p q with
      | none => q
      | some i => replaceAll fuel p r (q.take i ++ r ++ q.drop (i + p.length)) := rfl

theorem replaceAll_none (fuel : Nat) (p r q : List Char) (h : findSub p q = none) :
    replaceAll (fuel + 1) p r q = q := by
  rw [replaceAll_succ, h]

theorem replaceAll_some (fuel : Nat) (p r q : List Char) (i : Nat)
    (h : findSub p q = some i) :
    replaceAll (fuel + 1) p r q =
      replaceAll fuel p r (q.take i ++ r ++ q.drop (i + p.length)) := by
  rw [replaceAll_succ, h]

/-- One placeholder occurrence, embedded at a brace-free position,
is replaced by `r`; with no further occurrence the loop stops. -/
theorem replaceAll_step (fuel : Nat) (p2 r a t : List Char) (ha : obrace ∉ a)
    (hnone : findSub (obrace :: p2) (a ++ (r ++ t)) = none) :
    replaceAll (fuel + 2) (obrace :: p2) r (a ++ ((obrace :: p2) ++ t)) =
      a ++ (r ++ t) := by
  have hfind : findSub (obrace :: p2) (a ++ ((obrace :: p2) ++ t)) = some a.length := by
    rw [findSub_shift p2 ((obrace :: p2) ++ t) a ha, findSub_cons_self]
    simp
  have htake : (a ++ ((obrace :: p2) ++ t)).take a.length = a := List.take_left a _
  have hdrop : (a ++ ((obrace :: p2) ++ t)).drop (a.length + (obrace :: p2).length) = t := by
    rw [← List.append_assoc]
    have h2 := List.drop_left (a ++ (obrace :: p2)) t
    rwa [List.length_append] at h2
  rw [show fuel + 2 = fuel + 1 + 1 from rfl,
    replaceAll_some (fuel + 1) (obrace :: p2) r _ a.length hfind, htake, hdrop,
    List.append_assoc]
  exact replaceAll_none fuel _ _ _ hnone

theorem formatLoop_cons (fuel i : Nat) (q s : List Char) (rest : List (List Char)) :
    formatLoop fuel i q (s :: rest) =
      formatLoop fuel (i + 1) (replaceAll fuel (placeholderChars i) s q) rest := rfl

theorem formatLoop_nil (fuel i : Nat) (q : List Char) : formatLoop fuel i q [] = q := rfl

theorem placeholder0_eq : placeholderChars 0 = obrace :: [Char.ofNat 48, cbrace] := by
  decide

theorem placeholder1_eq : placeholderChars 1 = obrace :: [Char.ofNat 49, cbrace] := by
  decide

/-- The placeholder `{0}` does not occur in `{1}` followed by
brace-free text. -/
theorem findSub_ph0_in_ph1 (c : List Char) (hc : obrace ∉ c) :
    findSub (obrace :: [Char.ofNat 48, cbrace]) ((obrace :: [Char.ofNat 49, cbrace]) ++ c) =
      none := by
  have hcc : obrace ∉ (Char.ofNat 49 :: (cbrace :: c)) := by
    intro h
    rcases List.mem_cons.mp h with h | h
    · exact absurd h (by decide)
    rcases List.mem_cons.mp h with h | h
    · exact absurd h (by decide)
    · exact hc h
  have hpre : (obrace :: [Char.ofNat 48, cbrace]).isPrefixOf
      (obrace :: (Char.ofNat 49 :: (cbrace :: c))) = false := by
    simp [List.isPrefixOf, show (Char.ofNat 48 == Char.ofNat 49) = false from by decide]
  rw [show (obrace :: [Char.ofNat 49, cbrace]) ++ c =
      obrace :: (Char.ofNat 49 :: (cbrace :: c)) from rfl]
  rw [findSub, if_neg (by simp [hpre]), findSub_clean _ _ hcc]
  rfl

/-- Claim C2: a `format` append of an ordered list of names rewrites
the sequential placeholders `{0}`, `{1}` in the previously accumulated
text by the corresponding names, left-to-right, by literal substring
replacement (every occurrence of a placeholder is replaced); the
substitution inserts the names verbatim (no escaping) and touches
nothing else, so `?` bind markers survive; in particular the template
`INSERT INTO t ({0}, {1}) VALUES (?, ?)` with names `a`, `b` becomes
`INSERT INTO t (a, b) VALUES (?, ?)` with both `?` intact. -/
theorem format_substitutes_placeholders (fuel : Nat) (a b c n0 n1 : List Char)
    (ha : obrace ∉ a) (hb : obrace ∉ b) (hc : obrace ∉ c)
    (h0 : obrace ∉ n0) (h1 : obrace ∉ n1) :
    (query.appendFormat
        { query_ := a ++ placeholderChars 0 ++ b ++ placeholderChars 1 ++ c }
        (fuel + 2) [n0, n1]).query_ = a ++ n0 ++ b ++ n1 ++ c
    ∧ ((query.mkEmpty.appendCString
          "INSERT INTO t ({0}, {1}) VALUES (?, ?)".data).appendFormat 10
          [[Char.ofNat 97], [Char.ofNat 98]]).query_ =
        "INSERT INTO t (a, b) VALUES (?, ?)".data
    ∧ formatLoop 4 0 (placeholderChars 0) [[squote, bslash]] = [squote, bslash]
    ∧ formatLoop 6 0 "{0}?{0}".data [[Char.ofNat 122]] = "z?z".data := by
  refine ⟨?_, by decide, by decide, by decide⟩
  have hA : obrace ∉ a ++ (n0 ++ b) := by
    intro h
    rcases List.mem_append.mp h with h | h
    · exact ha h
    rcases List.mem_append.mp h with h | h
    · exact h0 h
    · exact hb h
  show formatLoop (fuel + 2) 0
      (a ++ placeholderChars 0 ++ b ++ placeholderChars 1 ++ c) [n0, n1] = _
  rw [formatLoop_cons, placeholder0_eq, placeholder1_eq]
  have hQ0 : a ++ (obrace :: [Char.ofNat 48, cbrace]) ++ b ++
      (obrace :: [Char.ofNat 49, cbrace]) ++ c =
      a ++ ((obrace :: [Char.ofNat 48, cbrace]) ++
        (b ++ ((obrace :: [Char.ofNat 49, cbrace]) ++ c))) := by
    simp [List.append_assoc]
  rw [hQ0]
  have hnone1 : findSub (obrace :: [Char.ofNat 48, cbrace])
      (a ++ (n0 ++ (b ++ ((obrace :: [Char.ofNat 49, cbrace]) ++ c)))) = none := by
    have hre : a ++ (n0 ++ (b ++ ((obrace :: [Char.ofNat 49, cbrace]) ++ c))) =
        (a ++ (n0 ++ b)) ++ ((obrace :: [Char.ofNat 49, cbrace]) ++ c) := by
      simp [List.append_assoc]
    rw [hre, findSub_shift _ _ _ hA, findSub_ph0_in_ph1 c hc]
    rfl
  rw [replaceAll_step fuel [Char.ofNat 48, cbrace] n0 a
      (b ++ ((obrace :: [Char.ofNat 49, cbrace]) ++ c)) ha hnone1]
  rw [formatLoop_cons, placeholder1_eq, formatLoop_nil]
  have hre2 : a ++ (n0 ++ (b ++ ((obrace :: [Char.ofNat 49, cbrace]) ++ c))) =
      (a ++ (n0 ++ b)) ++ ((obrace :: [Char.ofNat 49, cbrace]) ++ c) := by
    simp [List.append_assoc]
  rw [hre2]
  have hAll : obrace ∉ (a ++ (n0 ++ b)) ++ (n1 ++ c) := by
    intro h
    rcases List.mem_append.mp h with h | h
    · exact hA h
    rcases List.mem_append.mp h with h | h
    · exact h1 h
    · exact hc h
  rw [replaceAll_step fuel [Char.ofNat 49, cbrace] n1 (a ++ (n0 ++ b)) c hA
      (findSub_clean _ _ hAll)]
  simp [List.append_assoc]

/-- Witness for C2: substituting `x` and `y` into the template
`{0}-{1}`. -/
theorem format_substitutes_placeholders_witness :
    (query.appendFormat
        { query_ := [] ++ placeholderChars 0 ++ [Char.ofNat 45] ++
            placeholderChars 1 ++ [] }
        2 [[Char.ofNat 120], [Char.ofNat 121]]).query_ =
      [] ++ [Char.ofNat 120] ++ [Char.ofNat 45] ++ [Char.ofNat 121] ++ [] :=
  (format_substitutes_placeholders 0 [] [Char.ofNat 45] [] [Char.ofNat 120]
    [Char.ofNat 121] (by decide) (by decide) (by decide) (by decide) (by decide)).1

/-! ## Lemmas for the result-producing classifier -/

theorem kwHit_pos_bound (kw q : List Char) (i : Nat) (hk : kw ≠ [])
    (h : kwHit kw q i = true) : i < q.length + 1 := by
  unfold kwHit at h
  rw [Bool.and_eq_true] at h
  cases kw with
  | nil => exact absurd rfl hk
  | cons k ks =>
    by_contra hi
    push_neg at hi
    have hd : q.drop i = [] := List.drop_eq_nil_of_le (by omega)
    rw [hd] at h
    exact absurd h.1 (by simp [ciPrefixOf])

theorem kwSearch_iff (kw q : List Char) (hk : kw ≠ []) :
    kwSearch kw q = true ↔ KwOccurs kw q := by
  unfold kwSearch KwOccurs
  rw [List.any_eq_true]
  constructor
  · rintro ⟨i, _, hi⟩
    exact ⟨i, hi⟩
  · rintro ⟨i, hi⟩
    exact ⟨i, List.mem_range.mpr (kwHit_pos_bound kw q i hk hi), hi⟩

theorem selectSearch_iff (q : List Char) :
    selectSearch q = true ↔ SelectOccurs q := by
  unfold selectSearch SelectOccurs
  rw [List.any_eq_true]
  constructor
  · rintro ⟨i, _, hi⟩
    rw [Bool.and_eq_true, Bool.not_eq_true'] at hi
    exact ⟨i, hi⟩
  · rintro ⟨i, hi, hlook⟩
    refine ⟨i, List.mem_range.mpr
      (kwHit_pos_bound selectKw q i (by decide) hi), ?_⟩
    rw [Bool.and_eq_true, Bool.not_eq_true']
    exact ⟨hi, hlook⟩

/-- Claim C3, counterexample: the text `(SHOW)` puts the keyword
`SHOW` inside parentheses (a closing parenthesis follows it before any
opening one, and it is literally enclosed in a balanced pair), so the
claim predicts "not result-producing"; but the code's parenthesis
exclusion exists only on the `SELECT` regex, and `query_has_results`
classifies `(SHOW)` as result-producing. -/
theorem query_has_results_claim_counterexample :
    query_has_results "(SHOW)" = true
    ∧ claim_keyword_classifier "(SHOW)" = false := by decide

/-- Claim C3 as amended: `query_has_results` returns true iff one of
`DESC`, `SHOW`, `EXPLAIN`, `DESCRIBE` occurs at a word boundary
(case-insensitively, with no parenthesis condition), or `SELECT`
occurs at a word boundary at a position where the remainder has no
closing parenthesis before its next opening parenthesis (the
lookahead heuristic for "not inside parentheses", applied to `SELECT`
only); in particular `SELECT * FROM t` and `INSERT INTO t(x) SELECT 1`
classify as result-producing, and `UPDATE t SET x=1` and `(SELECT 1)`
do not. -/
theorem query_has_results_characterization :
    (∀ s : String, query_has_results s = true ↔ ExpectResults s)
    ∧ query_has_results "SELECT * FROM t" = true
    ∧ query_has_results "UPDATE t SET x=1" = false
    ∧ query_has_results "INSERT INTO t(x) SELECT 1" = true
    ∧ query_has_results "(SELECT 1)" = false := by
  refine ⟨?_, by decide, by decide, by decide, by decide⟩
  intro s
  unfold query_has_results ExpectResults
  simp only [Bool.or_eq_true]
  rw [kwSearch_iff descKw s.data (by decide), kwSearch_iff showKw s.data (by decide),
    kwSearch_iff explainKw s.data (by decide),
    kwSearch_iff describeKw s.data (by decide), selectSearch_iff s.data]
  tauto

/-- Witness for C3 on the concrete query `SELECT 1`. -/
theorem query_has_results_characterization_witness :
    ExpectResults "SELECT 1" :=
  (query_has_results_characterization.1 "SELECT 1").mp (by decide)

end Sqlxx

